import Mathlib

/-
  Verification development for the messenger_bot refinancing chatbot.

  Modelling conventions (shallow embedding):
  * Python floats are modelled as exact rationals (ℚ); the one function whose
    exponent can be fractional (backend/routes/chatbot.py, calculate_monthly_payment,
    where `years` is a float) is modelled over ℝ with real exponentiation.
  * Python `round(x, 2)` is modelled as round-half-to-even on rationals
    (Python's documented rounding mode), scaled by 100.
  * The BankRate table (SQLAlchemy query in backend/utils/calculation.py) is
    modelled as an explicit list of rows; `filter(...).order_by(interest_rate).first()`
    becomes filtering the list and taking the first row of minimal interest_rate.
    Per backend/models.py the max_amount column is declared nullable=False, so
    rows are modelled with a non-optional max_amount.
  * Python exceptions (KeyError from a missing dict key) are modelled with Except;
    an `Except.error` result means the enclosing webhook handler catches the
    exception and nothing is committed to the database.
  * Python truthiness of optional numeric arguments (`not x`) is modelled on
    Option: `none` (None) and `some 0` (0 / 0.0) are falsy.
-/

namespace MessengerBot

/- ---------------------------------------------------------------------
   Rounding: Python round(x, 2) (round half to even), on exact rationals.
   --------------------------------------------------------------------- -/

/-- Round a rational to the nearest integer, ties to even
(the rounding mode of Python's built-in `round`). -/
def roundHalfEven (q : ℚ) : ℤ :=
  let f := ⌊q⌋
  let frac := q - (f : ℚ)
  if frac < 1/2 then f
  else if 1/2 < frac then f + 1
  else if f % 2 = 0 then f else f + 1

/-- Python `round(x, 2)`: round to 2 decimal places. -/
def round2 (q : ℚ) : ℚ := (roundHalfEven (100 * q) : ℚ) / 100

/- ---------------------------------------------------------------------
   Data model: BankRate rows (backend/models.py) and the result dict of
   calculate_refinance_savings (backend/utils/calculation.py).
   --------------------------------------------------------------------- -/

/-- A row of the bank_rates table (backend/models.py, class BankRate).
min_amount, max_amount and interest_rate are non-nullable columns. -/
structure BankRate where
  bank_name : String
  min_amount : ℚ
  max_amount : ℚ
  interest_rate : ℚ
deriving DecidableEq, Repr

/-- The result dictionary of calculate_refinance_savings
(backend/utils/calculation.py, lines 21-30). -/
structure SavingsResult where
  monthly_savings : ℚ
  yearly_savings : ℚ
  lifetime_savings : ℚ
  new_monthly_repayment : ℚ
  years_saved : ℤ
  months_saved : ℤ
  new_interest_rate : ℚ
  bank_name : String
deriving DecidableEq, Repr

/-- The default all-zero result ("unavailable" outcome) initialised at the top
of calculate_refinance_savings and returned unchanged on validation failure or
when no bank rate matches. -/
def defaultResult : SavingsResult :=
  { monthly_savings := 0
    yearly_savings := 0
    lifetime_savings := 0
    new_monthly_repayment := 0
    years_saved := 0
    months_saved := 0
    new_interest_rate := 0
    bank_name := "" }

/-- The SQLAlchemy query of calculation.py lines 43-46:
`BankRate.query.filter(min_amount <= amt, max_amount >= amt).order_by(interest_rate).first()`.
Modelled as: keep the rows whose range contains the amount, return the first row
of minimal interest_rate (none when no row matches). -/
def selectBankRate (rows : List BankRate) (amt : ℚ) : Option BankRate :=
  match rows.filter (fun b => decide (b.min_amount ≤ amt) && decide (amt ≤ b.max_amount)) with
  | [] => none
  | b :: bs => some (bs.foldl (fun best c => if c.interest_rate < best.interest_rate then c else best) b)

/-- The annuity computation of calculation.py lines 61-66, with `r` the monthly
interest rate and `total_payments` the number of monthly payments. -/
def annuity_payment (amount r : ℚ) (total_payments : ℤ) : ℚ :=
  if r = 0 then amount / (total_payments : ℚ)
  else amount * (r * (1 + r) ^ total_payments) / ((1 + r) ^ total_payments - 1)

/-- Step 5 of calculation.py (lines 88-108): years and months saved, computed
from the (un-rounded) lifetime savings and the current repayment.
Python's float `%` is `x - 12*floor(x/12)`; math.floor and math.ceil are
Int.floor and Int.ceil. -/
def yearsMonthsSaved (lifetime_savings current_repayment : ℚ) : ℤ × ℤ :=
  if lifetime_savings > 0 ∧ current_repayment > 0 then
    let total_months_saved := lifetime_savings / current_repayment
    let years_saved : ℤ := ⌊total_months_saved / 12⌋
    let remaining_months : ℚ := total_months_saved - 12 * (⌊total_months_saved / 12⌋ : ℚ)
    let months_saved : ℤ := if remaining_months > 0 then ⌈remaining_months⌉ else 0
    let p : ℤ × ℤ := if months_saved = 12 then (years_saved + 1, 0) else (years_saved, months_saved)
    let months_final : ℤ :=
      if total_months_saved > 0 ∧ p.2 = 0 ∧ remaining_months > 0 then 1 else p.2
    (p.1, months_final)
  else (0, 0)

/-- backend/utils/calculation.py, calculate_refinance_savings.
The three arguments may be None in Python, hence Option; the guard
`if not original_loan_amount or not original_loan_tenure or not current_repayment`
rejects exactly None and 0 (Python truthiness).  The bank-rate table is passed
explicitly in place of the database. -/
def calculate_refinance_savings (rows : List BankRate)
    (original_loan_amount : Option ℚ) (original_loan_tenure : Option ℤ)
    (current_repayment : Option ℚ) : SavingsResult :=
  match original_loan_amount, original_loan_tenure, current_repayment with
  | some amt, some ten, some rep =>
    if amt = 0 ∨ ten = 0 ∨ rep = 0 then defaultResult
    else
      match selectBankRate rows amt with
      | none => defaultResult
      | some bank_rate =>
        let new_interest_rate := bank_rate.interest_rate
        let monthly_interest_rate := new_interest_rate / 100 / 12
        let total_payments : ℤ := ten * 12
        let new_monthly_repayment := round2 (annuity_payment amt monthly_interest_rate total_payments)
        let monthly_savings := rep - new_monthly_repayment
        let yearly_savings := monthly_savings * 12
        let existing_total_cost := rep * (ten : ℚ) * 12
        let new_total_cost := new_monthly_repayment * (ten : ℚ) * 12
        let lifetime_savings := existing_total_cost - new_total_cost
        let ym := yearsMonthsSaved lifetime_savings rep
        { monthly_savings := round2 monthly_savings
          yearly_savings := round2 yearly_savings
          lifetime_savings := round2 lifetime_savings
          new_monthly_repayment := new_monthly_repayment
          years_saved := ym.1
          months_saved := ym.2
          new_interest_rate := new_interest_rate
          bank_name := bank_rate.bank_name }
  | _, _, _ => defaultResult

/-- The spec's amortization formula, written from the spec's own words
(spec §4.3 step 3): "given monthly rate r = annual_rate/100/12 and
n = tenure_years × 12 payments, payment = principal × r×(1+r)^n / ((1+r)^n − 1);
when r == 0, payment = principal / n".  Used to compare the code's computation
against the specified formula. -/
def spec_monthly_payment (principal annual_rate : ℚ) (tenure_years : ℤ) : ℚ :=
  let r := annual_rate / 100 / 12
  let n : ℤ := tenure_years * 12
  if r = 0 then principal / (n : ℚ)
  else principal * (r * (1 + r) ^ n) / ((1 + r) ^ n - 1)

/- ---------------------------------------------------------------------
   backend/routes/chatbot.py: monthly payment helper (lines 165-178).
   `years` is annotated float and callers can pass non-integral values, so
   the exponent years*12 is a real number; the function is modelled over ℝ
   with real exponentiation.
   --------------------------------------------------------------------- -/

open Classical in
/-- backend/routes/chatbot.py, calculate_monthly_payment (lines 165-178). -/
noncomputable def calculate_monthly_payment (principal annual_interest_rate years : ℝ) : ℝ :=
  if principal ≤ 0 ∨ annual_interest_rate ≤ 0 ∨ years ≤ 0 then 0
  else
    let r := annual_interest_rate / 100 / 12
    let n := years * 12
    let numerator := r * (1 + r) ^ n
    let denominator := (1 + r) ^ n - 1
    if denominator = 0 then 0
    else principal * (numerator / denominator)

/- ---------------------------------------------------------------------
   backend/routes/chatbot.py: phone validation (lines 139-154, 491-503).
   --------------------------------------------------------------------- -/

/-- A Python return value that is either a bool or a string
(is_valid_phone returns True on success and an error-message string on
failure, despite its `-> bool` annotation). -/
inductive PyRet where
  | bool (b : Bool)
  | str (s : String)
deriving DecidableEq, Repr

/-- Python truthiness of such a value: True is truthy, a string is truthy
iff it is non-empty. -/
def pyTruthy : PyRet → Bool
  | .bool b => b
  | .str s => decide (s ≠ "")

/-- Semantics of `re.fullmatch(r"01\d{8,9}", phone)`: the whole string is
the characters 0, 1 followed by 8 or 9 decimal digits. -/
def fullmatch_phone (s : String) : Bool :=
  match s.data with
  | '0' :: '1' :: rest =>
    decide (8 ≤ rest.length) && decide (rest.length ≤ 9) && rest.all Char.isDigit
  | _ => false

/-- backend/routes/chatbot.py, is_valid_phone (lines 139-154).  Returns True
when the regex matches, otherwise a language-specific error-message STRING
(the quotation marks around 01 in the original literals are elided here). -/
def is_valid_phone (phone language : String) : PyRet :=
  if ¬ (fullmatch_phone phone = true) then
    if language = "ms" then
      .str "Sila masukkan nombor telefon yang sah bermula dengan 01 dan mempunyai 10 atau 11 digit."
    else if language = "zh" then
      .str "请输入有效的马来西亚电话号码，以01开头，并包含10或11位数字。"
    else
      .str "Please provide a valid Malaysian phone number starting with 01 and containing 10 or 11 digits."
  else .bool true

/-- `re.sub(r"[^\d+]", "", user_input)`: keep only digits and plus signs. -/
def strip_non_digits (s : String) : String :=
  ⟨s.data.filter (fun c => c.isDigit || c = '+')⟩

/- ---------------------------------------------------------------------
   The user record: the fields of the ORM object that the modelled handlers
   read or write (chatbot.py).  Unset columns are none.
   --------------------------------------------------------------------- -/

/-- The user/session record, with the fields touched by the modelled
handlers of backend/routes/chatbot.py. -/
structure UserRec where
  messenger_id : String
  name : Option String
  phone_number : Option String
  language : Option String
  state : String
  outstanding_balance : Option ℚ
  current_interest_rate : Option ℚ
  remaining_tenure : Option ℚ
  original_amount : Option ℚ
  original_tenure : Option ℚ
  current_monthly_payment : Option ℚ
  years_paid : Option ℚ
  temp_cashout_amount : Option ℚ
  monthly_savings : Option ℚ
  yearly_savings : Option ℚ
  total_savings : Option ℚ
  tenure : Option ℚ
  new_rate : Option ℚ
deriving DecidableEq, Repr

/-- backend/routes/chatbot.py, handle_phone_collection (lines 491-503).
NOTE: the source calls `is_valid_phone(phone)` without the required second
positional argument, which raises TypeError for every input at runtime; the
guard is modelled as written (`if not is_valid_phone(...)`) with the user's
language supplied, to exhibit the behaviour of the guard itself.  On the
falsy branch the handler sends an error message and returns without change;
otherwise it stores the phone and advances to PATH_SELECTION. -/
def handle_phone_collection (user : UserRec) (user_input : String) : UserRec :=
  let phone := strip_non_digits user_input
  if pyTruthy (is_valid_phone phone (user.language.getD "en")) = false then user
  else { user with phone_number := some phone, state := "PATH_SELECTION" }

/- ---------------------------------------------------------------------
   backend/routes/chatbot.py: STATES dict (lines 60-93) and reset_user
   (lines 1394-1422).
   --------------------------------------------------------------------- -/

/-- The STATES dict of chatbot.py lines 60-93 (keys in source order). -/
def STATES : List (String × String) := [
  ("LANGUAGE_SELECTION", "LANGUAGE_SELECTION"),
  ("CONTACT_ADMIN", "CONTACT_ADMIN"),
  ("NAME_COLLECTION", "NAME_COLLECTION"),
  ("PHONE_COLLECTION", "PHONE_COLLECTION"),
  ("PATH_SELECTION", "PATH_SELECTION"),
  ("PATH_A_GATHER_BALANCE", "PATH_A_GATHER_BALANCE"),
  ("PATH_A_GATHER_INTEREST", "PATH_A_GATHER_INTEREST"),
  ("PATH_A_GATHER_TENURE", "PATH_A_GATHER_TENURE"),
  ("PATH_A_CALCULATE", "PATH_A_CALCULATE"),
  ("PATH_B_GATHER_ORIGINAL_AMOUNT", "PATH_B_GATHER_ORIGINAL_AMOUNT"),
  ("PATH_B_GATHER_ORIGINAL_TENURE", "PATH_B_GATHER_ORIGINAL_TENURE"),
  ("PATH_B_GATHER_MONTHLY_PAYMENT", "PATH_B_GATHER_MONTHLY_PAYMENT"),
  ("PATH_B_GATHER_YEARS_PAID", "PATH_B_GATHER_YEARS_PAID"),
  ("PATH_B_CALCULATE", "PATH_B_CALCULATE"),
  ("CASHOUT_OFFER", "CASHOUT_OFFER"),
  ("CASHOUT_GATHER_AMOUNT", "CASHOUT_GATHER_AMOUNT"),
  ("CASHOUT_CALCULATE", "CASHOUT_CALCULATE"),
  ("FAQ", "FAQ"),
  ("END", "END"),
  ("WAITING_INPUT", "WAITING_INPUT"),
  ("RESTART", "RESTART"),
  ("ERROR_STATE", "ERROR_STATE")]

/-- Python dict access `STATES[key]`, returning none when the key is absent
(in Python this raises KeyError). -/
def statesLookup (key : String) : Option String :=
  (STATES.find? (fun p => p.1 == key)).map (fun p => p.2)

/-- backend/routes/chatbot.py, reset_user (lines 1394-1422).
The source assigns name := "Unknown", phone_number := "Unknown", preserves a
truthy language (defaulting a falsy one to "en"), and then evaluates
`STATES['GET_STARTED_YES']` BEFORE the loan-field clearing lines and the
final commit.  A missing dict key raises KeyError, modelled as Except.error:
in that case the enclosing webhook handler catches the exception and nothing
is committed, so the error result carries no partial update. -/
def reset_user (user : UserRec) : Except String UserRec :=
  let u1 : UserRec := { user with name := some "Unknown", phone_number := some "Unknown" }
  let u2 : UserRec := { u1 with language :=
    match u1.language with
    | some s => if s = "" then some "en" else some s
    | none => some "en" }
  match statesLookup "GET_STARTED_YES" with
  | none => Except.error "KeyError: GET_STARTED_YES"
  | some st =>
    Except.ok { u2 with
      state := st
      outstanding_balance := none
      current_interest_rate := none
      remaining_tenure := none
      original_amount := none
      original_tenure := none
      current_monthly_payment := none
      years_paid := none
      temp_cashout_amount := none
      monthly_savings := none
      yearly_savings := none
      total_savings := none
      tenure := none
      new_rate := none }

/- ---------------------------------------------------------------------
   backend/routes/chatbot.py: handle_waiting_input (lines 1028-1079), the
   inquiry-mode dispatcher.  It builds a context from the user's saved
   savings figures, then unconditionally attempts the OpenAI chat
   completion; on success it sends the reply, on failure a localized error
   message.  In either case the state stays WAITING_INPUT.  There is no
   counter, no quota and no limit-reached message anywhere in the function
   (nor any query_count column in backend/models.py).
   --------------------------------------------------------------------- -/

/-- The outbound reply of handle_waiting_input: either the AI answer or the
localized generic error message (get_message(user.language, error_message)). -/
inductive WaitReply where
  | ai (answer : String)
  | errorMsg
deriving DecidableEq, Repr

/-- Outcome of one handle_waiting_input call: whether the AI completion was
invoked, the reply sent, and the updated user record. -/
structure InquiryOutcome where
  aiCalled : Bool
  reply : WaitReply
  user : UserRec
deriving DecidableEq, Repr

/-- backend/routes/chatbot.py, handle_waiting_input (lines 1028-1079).
`ai` is the external completion call (none models an exception). -/
def handle_waiting_input (ai : String → Option String) (user : UserRec)
    (user_input : String) : InquiryOutcome :=
  match ai user_input with
  | some answer =>
    { aiCalled := true, reply := .ai answer, user := { user with state := "WAITING_INPUT" } }
  | none =>
    { aiCalled := true, reply := .errorMsg, user := { user with state := "WAITING_INPUT" } }

/-- Process a sequence of inbound inquiry-mode messages, threading the user
record through handle_waiting_input. -/
def run_waiting (ai : String → Option String) : UserRec → List String → List InquiryOutcome
  | _, [] => []
  | u, msg :: rest =>
    let o := handle_waiting_input ai u msg
    o :: run_waiting ai o.user rest

/-- The present value of an annuity of 1 per month for n months at monthly
rate r: the sum of the discount factors (1/(1+r))^1 .. (1/(1+r))^n.  The
annuity payment of the code equals amount / annuityFactor r n (proved
below), which makes its monotonicity in the rate transparent. -/
def annuityFactor (r : ℚ) (n : ℕ) : ℚ :=
  Finset.sum (Finset.range n) (fun j => (1 / (1 + r)) ^ (j + 1))

/- ---------------------------------------------------------------------
   Concrete records used by closed theorems below.
   --------------------------------------------------------------------- -/

/-- A user mid-flow with a chosen language and populated loan fields. -/
def userMsMidFlow : UserRec :=
  { messenger_id := "1000001"
    name := some "Aisyah"
    phone_number := some "0123456789"
    language := some "ms"
    state := "PATH_B_GATHER_ORIGINAL_TENURE"
    outstanding_balance := some 250000
    current_interest_rate := some (9/2)
    remaining_tenure := some 20
    original_amount := some 300000
    original_tenure := some 30
    current_monthly_payment := some 1500
    years_paid := some 5
    temp_cashout_amount := none
    monthly_savings := some 100
    yearly_savings := some 1200
    total_savings := some 36000
    tenure := some 30
    new_rate := some (38/10) }

/-- A user in inquiry mode (state WAITING_INPUT). -/
def userInquiry : UserRec :=
  { messenger_id := "1000002"
    name := some "Ben"
    phone_number := some "0198765432"
    language := some "en"
    state := "WAITING_INPUT"
    outstanding_balance := none
    current_interest_rate := some 4
    remaining_tenure := some 20
    original_amount := some 300000
    original_tenure := some 30
    current_monthly_payment := some 1500
    years_paid := none
    temp_cashout_amount := none
    monthly_savings := some 100
    yearly_savings := some 1200
    total_savings := some 36000
    tenure := some 30
    new_rate := some (38/10) }

/-- A user at the phone-collection step. -/
def userAtPhoneStep : UserRec :=
  { messenger_id := "1000003"
    name := some "Carol"
    phone_number := none
    language := some "en"
    state := "PHONE_COLLECTION"
    outstanding_balance := none
    current_interest_rate := none
    remaining_tenure := none
    original_amount := none
    original_tenure := none
    current_monthly_payment := none
    years_paid := none
    temp_cashout_amount := none
    monthly_savings := none
    yearly_savings := none
    total_savings := none
    tenure := none
    new_rate := none }

/- ---------------------------------------------------------------------
   Theorems.
   --------------------------------------------------------------------- -/

unseal Rat.mul Rat.inv Rat.add Rat.sub Rat.ofScientific

set_option maxRecDepth 100000

lemma selectBankRate_eq_none_of_no_match (rows : List BankRate) (amt : ℚ)
    (h : ∀ br ∈ rows, ¬ (br.min_amount ≤ amt ∧ amt ≤ br.max_amount)) :
    selectBankRate rows amt = none := by
  unfold selectBankRate
  have hfil : rows.filter (fun b => decide (b.min_amount ≤ amt) && decide (amt ≤ b.max_amount)) = [] := by
    rw [List.filter_eq_nil_iff]
    intro b hb
    simp only [Bool.and_eq_true, decide_eq_true_eq, not_and]
    exact fun h1 h2 => h b hb ⟨h1, h2⟩
  rw [hfil]

/-- Claim C1: for every loan amount contained in no BankRate row's
[min_amount, max_amount] range, calculate_refinance_savings returns the
default all-zero "unavailable" result, whatever the tenure and repayment
arguments are, and its new_interest_rate field stays 0 (no default rate is
substituted inside the calculator).  (Per backend/models.py the max_amount
column is non-nullable, so there are no null-max rows to treat as
unbounded.) -/
theorem C1_no_matching_rate_returns_unavailable (rows : List BankRate) (amt : ℚ)
    (tenure : Option ℤ) (repayment : Option ℚ)
    (h : ∀ br ∈ rows, ¬ (br.min_amount ≤ amt ∧ amt ≤ br.max_amount)) :
    calculate_refinance_savings rows (some amt) tenure repayment = defaultResult ∧
    (calculate_refinance_savings rows (some amt) tenure repayment).new_interest_rate = 0 := by
  have hsel := selectBankRate_eq_none_of_no_match rows amt h
  have hmain : calculate_refinance_savings rows (some amt) tenure repayment = defaultResult := by
    cases tenure with
    | none => rfl
    | some ten =>
      cases repayment with
      | none => rfl
      | some rep =>
        unfold calculate_refinance_savings
        dsimp only
        by_cases hz : amt = 0 ∨ ten = 0 ∨ rep = 0
        · rw [if_pos hz]
        · rw [if_neg hz, hsel]
  exact ⟨hmain, by rw [hmain]; rfl⟩

/-- Witness for C1, at the spec's Scenario 2 input: amount 5,000,000 with a
rate table covering only [100000, 1000000]. -/
theorem C1_witness :
    calculate_refinance_savings [⟨"Maybank", 100000, 1000000, 38/10⟩]
        (some 5000000) (some 30) (some 2000) = defaultResult ∧
    (calculate_refinance_savings [⟨"Maybank", 100000, 1000000, 38/10⟩]
        (some 5000000) (some 30) (some 2000)).new_interest_rate = 0 :=
  C1_no_matching_rate_returns_unavailable _ _ _ _ (by decide)

/-- Claim C5 counterexample: a NEGATIVE current_repayment (-50) is not
rejected by the truthiness guard `if not ...` (which only catches None and
0): the calculator performs the bank-rate lookup (bank_name is filled in)
and produces a numeric new_monthly_repayment, so the result is not the
"unavailable" outcome. -/
theorem C5_counterexample :
    calculate_refinance_savings [⟨"A", 0, 100000, 1/2⟩] (some 12) (some 1) (some (-50)) ≠ defaultResult ∧
    (calculate_refinance_savings [⟨"A", 0, 100000, 1/2⟩] (some 12) (some 1) (some (-50))).bank_name = "A" ∧
    (calculate_refinance_savings [⟨"A", 0, 100000, 1/2⟩] (some 12) (some 1) (some (-50))).new_monthly_repayment = 1 := by
  refine ⟨by decide, by decide, by decide⟩

/-- Claim C5 (amended): if any of the three inputs is missing (None) or
zero, the calculator returns the default "unavailable" result for EVERY
rate table (in particular without the rate lookup influencing the result);
negative inputs are not caught by this guard. -/
theorem C5_missing_or_zero_rejected (rows : List BankRate) (amount : Option ℚ)
    (tenure : Option ℤ) (repayment : Option ℚ)
    (h : amount = none ∨ amount = some 0 ∨ tenure = none ∨ tenure = some 0 ∨
         repayment = none ∨ repayment = some 0) :
    calculate_refinance_savings rows amount tenure repayment = defaultResult := by
  rcases amount with _ | a <;> rcases tenure with _ | t <;> rcases repayment with _ | r <;> try rfl
  have hz : a = 0 ∨ t = 0 ∨ r = 0 := by
    rcases h with h|h|h|h|h|h <;> simp_all
  unfold calculate_refinance_savings
  dsimp only
  rw [if_pos hz]

/-- Witness for the amended C5: a zero loan amount is rejected. -/
theorem C5_witness :
    calculate_refinance_savings [⟨"A", 0, 100000, 1/2⟩] (some 0) (some 30) (some 2000) = defaultResult :=
  C5_missing_or_zero_rejected _ _ _ _ (by simp)

/-- Claim C6 (code bug): for EVERY user, the restart reset operation
raises KeyError, because reset_user assigns `STATES['GET_STARTED_YES']`
and GET_STARTED_YES is not a key of the STATES dict.  So no field is
nulled-and-committed and current_step is not reset; the webhook handler
catches the exception and returns a 500. -/
theorem C6_restart_raises_keyerror (u : UserRec) :
    reset_user u = Except.error "KeyError: GET_STARTED_YES" ∧
    statesLookup "GET_STARTED_YES" = none :=
  ⟨rfl, rfl⟩

/-- Claim C10 (code bug): for a user whose language is already set (to
"ms") and whose loan fields are populated, reset_user fails with KeyError
before reaching the loan-field clearing assignments, so the loan-related
fields are not cleared (and nothing is committed). -/
theorem C10_reset_aborts_before_clearing :
    userMsMidFlow.language = some "ms" ∧
    userMsMidFlow.original_amount = some 300000 ∧
    userMsMidFlow.monthly_savings = some 100 ∧
    reset_user userMsMidFlow = Except.error "KeyError: GET_STARTED_YES" :=
  ⟨rfl, rfl, rfl, rfl⟩

/-- Claim C8 (code bug): the phone pattern itself accepts 10- and 11-digit
strings starting 01 and fails 9- and 12-digit strings, BUT on failure
is_valid_phone returns a non-empty error STRING, which is truthy, so the
caller's guard `if not is_valid_phone(...)` never fires: for the 9-digit
input 012345678 the handler stores the phone and advances the session to
PATH_SELECTION instead of rejecting it.  (On top of that, the source calls
is_valid_phone(phone) without its required language argument, which raises
TypeError for every input.) -/
theorem C8_phone_validator_bug :
    is_valid_phone "0123456789" "en" = PyRet.bool true ∧
    is_valid_phone "01234567890" "en" = PyRet.bool true ∧
    is_valid_phone "012345678" "en" ≠ PyRet.bool true ∧
    pyTruthy (is_valid_phone "012345678" "en") = true ∧
    pyTruthy (is_valid_phone "012345678901" "en") = true ∧
    (handle_phone_collection userAtPhoneStep "012345678").state = "PATH_SELECTION" ∧
    (handle_phone_collection userAtPhoneStep "012345678").phone_number = some "012345678" := by
  refine ⟨by decide, by decide, by decide, by decide, by decide, by decide, by decide⟩

/-- Claim C7 counterexample: with no quota anywhere in the code, the 16th
consecutive inquiry-mode message (after 15 have been consumed, the spec's
example limit) still invokes the AI completion and receives the AI answer,
not a limit-reached reply. -/
theorem C7_counterexample :
    (run_waiting (fun _ => some "answer") userInquiry (List.replicate 16 "question")).length = 16 ∧
    ((run_waiting (fun _ => some "answer") userInquiry (List.replicate 16 "question")).getLast?).map
        (fun o => (o.aiCalled, o.reply)) = some (true, WaitReply.ai "answer") := by
  refine ⟨by decide, by decide⟩

/-- Claim C7 (amended): in inquiry mode every inbound message invokes the
AI completion function and leaves the state at WAITING_INPUT, regardless of
how many messages preceded it; no count is kept and no limit-reached reply
exists. -/
theorem C7_ai_always_called (ai : String → Option String) (u : UserRec)
    (msgs : List String) :
    ∀ o ∈ run_waiting ai u msgs, o.aiCalled = true ∧ o.user.state = "WAITING_INPUT" := by
  induction msgs generalizing u with
  | nil => intro o ho; cases ho
  | cons m rest ih =>
    intro o ho
    rcases ho with _ | ⟨_, hmem⟩
    · unfold handle_waiting_input
      cases ai m <;> exact ⟨rfl, rfl⟩
    · exact ih _ o (by assumption)

/-- Witness for the amended C7: a single inquiry message triggers the AI call. -/
theorem C7_witness :
    (handle_waiting_input (fun _ => some "a") userInquiry "q").aiCalled = true ∧
    (handle_waiting_input (fun _ => some "a") userInquiry "q").user.state = "WAITING_INPUT" :=
  C7_ai_always_called (fun _ => some "a") userInquiry ["q"]
    (handle_waiting_input (fun _ => some "a") userInquiry "q") (by simp [run_waiting])

lemma calc_fields (rows : List BankRate) (amt : ℚ) (ten : ℤ) (rep : ℚ) (br : BankRate)
    (hz : ¬ (amt = 0 ∨ ten = 0 ∨ rep = 0)) (hsel : selectBankRate rows amt = some br) :
    calculate_refinance_savings rows (some amt) (some ten) (some rep) =
      { monthly_savings := round2 (rep - round2 (annuity_payment amt (br.interest_rate / 100 / 12) (ten * 12)))
        yearly_savings := round2 ((rep - round2 (annuity_payment amt (br.interest_rate / 100 / 12) (ten * 12))) * 12)
        lifetime_savings := round2 (rep * (ten : ℚ) * 12 - round2 (annuity_payment amt (br.interest_rate / 100 / 12) (ten * 12)) * (ten : ℚ) * 12)
        new_monthly_repayment := round2 (annuity_payment amt (br.interest_rate / 100 / 12) (ten * 12))
        years_saved := (yearsMonthsSaved (rep * (ten : ℚ) * 12 - round2 (annuity_payment amt (br.interest_rate / 100 / 12) (ten * 12)) * (ten : ℚ) * 12) rep).1
        months_saved := (yearsMonthsSaved (rep * (ten : ℚ) * 12 - round2 (annuity_payment amt (br.interest_rate / 100 / 12) (ten * 12)) * (ten : ℚ) * 12) rep).2
        new_interest_rate := br.interest_rate
        bank_name := br.bank_name } := by
  unfold calculate_refinance_savings
  dsimp only
  rw [if_neg hz, hsel]

/-- Claim C2: with a matched bank rate, the produced new_monthly_repayment
equals the spec's annuity formula — r = annual_rate/100/12, n = tenure×12,
payment = principal × r×(1+r)^n / ((1+r)^n − 1), and principal/n when
r = 0 — rounded to 2 decimal places at the point of producing the result. -/
theorem C2_new_monthly_repayment_formula (rows : List BankRate) (amt : ℚ) (ten : ℤ)
    (rep : ℚ) (br : BankRate)
    (ha : amt ≠ 0) (ht : ten ≠ 0) (hr : rep ≠ 0)
    (hsel : selectBankRate rows amt = some br) :
    (calculate_refinance_savings rows (some amt) (some ten) (some rep)).new_monthly_repayment
      = round2 (spec_monthly_payment amt br.interest_rate ten) := by
  have hz : ¬ (amt = 0 ∨ ten = 0 ∨ rep = 0) := by tauto
  rw [calc_fields rows amt ten rep br hz hsel]
  rfl

/-- Witness for C2 at a concrete matched rate. -/
theorem C2_witness :
    (calculate_refinance_savings [⟨"A", 0, 100000, 1/2⟩] (some 12) (some 1) (some 5)).new_monthly_repayment
      = round2 (spec_monthly_payment 12 (1/2) 1) :=
  C2_new_monthly_repayment_formula _ _ _ _ ⟨"A", 0, 100000, 1/2⟩
    (by decide) (by decide) (by decide) (by decide)

lemma yms_eq_of_pos (L c : ℚ) (h : L > 0 ∧ c > 0) :
    yearsMonthsSaved L c =
      (let t := L / c
       let m0 : ℤ := if t - 12 * (⌊t / 12⌋ : ℚ) > 0 then ⌈t - 12 * (⌊t / 12⌋ : ℚ)⌉ else 0
       let p : ℤ × ℤ := if m0 = 12 then (⌊t / 12⌋ + 1, 0) else (⌊t / 12⌋, m0)
       (p.1, if t > 0 ∧ p.2 = 0 ∧ t - 12 * (⌊t / 12⌋ : ℚ) > 0 then 1 else p.2)) := by
  unfold yearsMonthsSaved
  rw [if_pos h]

lemma yearsMonthsSaved_spec (L c : ℚ) (hL : 0 < L) (hc : 0 < c) :
    |(((yearsMonthsSaved L c).1 * 12 + (yearsMonthsSaved L c).2 : ℤ) : ℚ) - L / c| < 2 ∧
    (yearsMonthsSaved L c).2 ≠ 12 ∧ 0 ≤ (yearsMonthsSaved L c).2 ∧ (yearsMonthsSaved L c).2 ≤ 11 ∧
    (L / c - 12 * (⌊L / c / 12⌋ : ℚ) > 0 → 1 ≤ (yearsMonthsSaved L c).2) := by
  have htpos : 0 < L / c := div_pos hL hc
  have hfl : (⌊L / c / 12⌋ : ℚ) ≤ L / c / 12 := Int.floor_le _
  have hfl2 : L / c / 12 < (⌊L / c / 12⌋ : ℚ) + 1 := Int.lt_floor_add_one _
  have hE0 : 0 ≤ L / c - 12 * (⌊L / c / 12⌋ : ℚ) := by linarith
  have hE12 : L / c - 12 * (⌊L / c / 12⌋ : ℚ) < 12 := by linarith
  rw [yms_eq_of_pos L c ⟨hL, hc⟩]
  dsimp only
  by_cases hE : L / c - 12 * (⌊L / c / 12⌋ : ℚ) > 0
  · rw [if_pos hE]
    have hceil_le : ⌈L / c - 12 * (⌊L / c / 12⌋ : ℚ)⌉ ≤ 12 := by
      rw [Int.ceil_le]
      push_cast
      linarith
    have hceil_pos : 1 ≤ ⌈L / c - 12 * (⌊L / c / 12⌋ : ℚ)⌉ := Int.ceil_pos.mpr hE
    have hle : (L / c - 12 * (⌊L / c / 12⌋ : ℚ)) ≤ (⌈L / c - 12 * (⌊L / c / 12⌋ : ℚ)⌉ : ℚ) :=
      Int.le_ceil _
    have hlt : (⌈L / c - 12 * (⌊L / c / 12⌋ : ℚ)⌉ : ℚ) < (L / c - 12 * (⌊L / c / 12⌋ : ℚ)) + 1 :=
      Int.ceil_lt_add_one _
    by_cases h12 : ⌈L / c - 12 * (⌊L / c / 12⌋ : ℚ)⌉ = 12
    · rw [if_pos h12]
      rw [if_pos ⟨htpos, rfl, hE⟩]
      have hgt11 : (11 : ℚ) < L / c - 12 * (⌊L / c / 12⌋ : ℚ) := by
        by_contra hle11
        push_neg at hle11
        have hc11 : ⌈L / c - 12 * (⌊L / c / 12⌋ : ℚ)⌉ ≤ 11 := by
          rw [Int.ceil_le]
          push_cast
          linarith
        omega
      refine ⟨?_, by norm_num, by norm_num, by norm_num, fun _ => le_refl 1⟩
      rw [abs_lt]
      constructor <;> push_cast <;> linarith
    · rw [if_neg h12]
      have hm0 : ⌈L / c - 12 * (⌊L / c / 12⌋ : ℚ)⌉ ≠ 0 := by omega
      rw [if_neg (by simp only [not_and]; intro _ hcontra; exact absurd hcontra hm0)]
      refine ⟨?_, h12, by omega, by omega, fun _ => hceil_pos⟩
      rw [abs_lt]
      constructor <;> push_cast <;> linarith
  · rw [if_neg hE]
    rw [if_neg (by decide : ¬ ((0 : ℤ) = 12))]
    rw [if_neg (fun hand => hE hand.2.2)]
    have hEz : L / c - 12 * (⌊L / c / 12⌋ : ℚ) = 0 := le_antisymm (not_lt.mp hE) hE0
    refine ⟨?_, by norm_num, by norm_num, by norm_num, fun hcontra => absurd hcontra hE⟩
    rw [abs_lt]
    constructor <;> push_cast <;> linarith

/-- Claim C3 counterexample: amount 1200, tenure 1, repayment 2400 at a
matched 0% rate give lifetime_savings 27600 and total months saved
27600/2400 = 11.5; the code's ceil-to-12 carry plus the at-least-1-month
rule report 1 year 1 month = 13 months, which differs from 11.5 by 1.5,
more than the claimed 1 month. -/
theorem C3_counterexample :
    (calculate_refinance_savings [⟨"ZeroBank", 0, 100000, 0⟩] (some 1200) (some 1) (some 2400)).years_saved = 1 ∧
    (calculate_refinance_savings [⟨"ZeroBank", 0, 100000, 0⟩] (some 1200) (some 1) (some 2400)).months_saved = 1 ∧
    (calculate_refinance_savings [⟨"ZeroBank", 0, 100000, 0⟩] (some 1200) (some 1) (some 2400)).lifetime_savings = 27600 ∧
    (calculate_refinance_savings [⟨"ZeroBank", 0, 100000, 0⟩] (some 1200) (some 1) (some 2400)).new_monthly_repayment = 100 ∧
    ¬ (|(((1 : ℤ) * 12 + 1 : ℤ) : ℚ) - 27600 / 2400| ≤ 1) := by
  refine ⟨by decide, by decide, by decide, by decide, ?_⟩
  rw [show (((1 : ℤ) * 12 + 1 : ℤ) : ℚ) - 27600 / 2400 = 3/2 by norm_num]
  rw [abs_of_pos (by norm_num)]
  norm_num

/-- Claim C3 (amended): whenever the (pre-rounding) lifetime savings
L = rep·ten·12 − new_monthly_repayment·ten·12 is positive and the current
repayment is positive, the reported years·12 + months is within 2 months
(strictly) of L / rep — the deviation exceeds 1 month only when the
fractional remainder lies in (11,12), where the ceil-to-12 carry combines
with the at-least-1-month rule — months_saved is never 12 (always in
[0, 11]), and a positive remainder never reports 0 months; when the
precondition fails, years_saved and months_saved are both 0. -/
theorem C3_years_months_within_two (rows : List BankRate) (amt rep : ℚ) (ten : ℤ)
    (br : BankRate)
    (ha : amt ≠ 0) (ht : ten ≠ 0) (hr : rep ≠ 0)
    (hsel : selectBankRate rows amt = some br) :
    (let res := calculate_refinance_savings rows (some amt) (some ten) (some rep)
     let L := rep * (ten : ℚ) * 12 - res.new_monthly_repayment * (ten : ℚ) * 12
     (0 < L → 0 < rep →
        |((res.years_saved * 12 + res.months_saved : ℤ) : ℚ) - L / rep| < 2 ∧
        res.months_saved ≠ 12 ∧ 0 ≤ res.months_saved ∧ res.months_saved ≤ 11 ∧
        (L / rep - 12 * (⌊L / rep / 12⌋ : ℚ) > 0 → 1 ≤ res.months_saved)) ∧
     (¬ (L > 0 ∧ rep > 0) → res.years_saved = 0 ∧ res.months_saved = 0)) := by
  have hz : ¬ (amt = 0 ∨ ten = 0 ∨ rep = 0) := by tauto
  rw [calc_fields rows amt ten rep br hz hsel]
  dsimp only
  constructor
  · intro hL hrep
    exact yearsMonthsSaved_spec _ _ hL hrep
  · intro hn
    unfold yearsMonthsSaved
    rw [if_neg hn]
    exact ⟨rfl, rfl⟩

/-- Witness for the amended C3 (amount 12, tenure 1, repayment 5 at a
matched 0.5% rate: L = 48, total months saved 9.6, reported 0y 10m). -/
theorem C3_witness :
    (let res := calculate_refinance_savings [⟨"A", 0, 100000, 1/2⟩] (some 12) (some 1) (some 5)
     let L := (5 : ℚ) * ((1 : ℤ) : ℚ) * 12 - res.new_monthly_repayment * ((1 : ℤ) : ℚ) * 12
     (0 < L → 0 < (5 : ℚ) →
        |((res.years_saved * 12 + res.months_saved : ℤ) : ℚ) - L / 5| < 2 ∧
        res.months_saved ≠ 12 ∧ 0 ≤ res.months_saved ∧ res.months_saved ≤ 11 ∧
        (L / 5 - 12 * (⌊L / 5 / 12⌋ : ℚ) > 0 → 1 ≤ res.months_saved)) ∧
     (¬ (L > 0 ∧ (5 : ℚ) > 0) → res.years_saved = 0 ∧ res.months_saved = 0)) :=
  C3_years_months_within_two [⟨"A", 0, 100000, 1/2⟩] 12 5 1 ⟨"A", 0, 100000, 1/2⟩
    (by decide) (by decide) (by decide) (by decide)

lemma annuityFactor_pos (r : ℚ) (hr : 0 ≤ r) (n : ℕ) (hn : 0 < n) :
    0 < annuityFactor r n := by
  apply Finset.sum_pos
  · intro j _
    have h1 : (0:ℚ) < 1 + r := by linarith
    positivity
  · exact Finset.nonempty_range_iff.mpr hn.ne'

lemma annuityFactor_zero (n : ℕ) : annuityFactor 0 n = n := by
  unfold annuityFactor
  simp

lemma annuityFactor_anti (r1 r2 : ℚ) (n : ℕ) (hn : 0 < n) (h0 : 0 ≤ r1) (h12 : r1 < r2) :
    annuityFactor r2 n < annuityFactor r1 n := by
  unfold annuityFactor
  apply Finset.sum_lt_sum_of_nonempty (Finset.nonempty_range_iff.mpr hn.ne')
  intro j _
  have ha : (0:ℚ) < 1 + r1 := by linarith
  have hb : (0:ℚ) < 1 + r2 := by linarith
  have hx : 1 / (1 + r2) < 1 / (1 + r1) := one_div_lt_one_div_of_lt ha (by linarith)
  exact pow_lt_pow_left₀ hx (by positivity) (Nat.succ_ne_zero j)

lemma annuity_payment_eq_div (amount r : ℚ) (n : ℕ) (hn : 0 < n) (hr : 0 ≤ r) :
    annuity_payment amount r (n : ℤ) = amount / annuityFactor r n := by
  rcases eq_or_lt_of_le hr with h0 | hpos
  · rw [← h0, annuityFactor_zero]
    unfold annuity_payment
    rw [if_pos rfl]
    push_cast
    ring
  · have h1 : (0:ℚ) < 1 + r := by linarith
    have hrne : r ≠ 0 := ne_of_gt hpos
    have hne1 : (1 + r) ≠ 1 := by intro hc; apply hrne; linarith
    have hgt1 : (1:ℚ) < 1 + r := by linarith
    have hpow1 : 1 < (1 + r) ^ n := one_lt_pow₀ hgt1 hn.ne'
    have hden : (1 + r) ^ n - 1 ≠ 0 := sub_ne_zero.mpr (ne_of_gt hpow1)
    have hterm : ∀ j ∈ Finset.range n,
        (1 / (1 + r)) ^ (j + 1) * (1 + r) ^ n = (1 + r) ^ (n - 1 - j) := by
      intro j hj
      have hj2 : j < n := Finset.mem_range.mp hj
      have hsplit : (1 + r) ^ n = (1 + r) ^ (j + 1) * (1 + r) ^ (n - 1 - j) := by
        rw [← pow_add]
        congr 1
        omega
      rw [hsplit, one_div, inv_pow]
      field_simp
    have hkey : annuityFactor r n * (1 + r) ^ n * r = (1 + r) ^ n - 1 := by
      unfold annuityFactor
      rw [Finset.sum_mul, Finset.sum_congr rfl hterm,
          Finset.sum_range_reflect (fun i => (1 + r) ^ i) n, geom_sum_eq hne1 n,
          show (1 + r) - 1 = r by ring]
      field_simp
    unfold annuity_payment
    rw [if_neg hrne, zpow_natCast]
    have hAF : annuityFactor r n ≠ 0 := ne_of_gt (annuityFactor_pos r hr n hn)
    rw [div_eq_div_iff hden hAF]
    linear_combination amount * hkey

lemma annuity_payment_strict (amount : ℚ) (hP : 0 < amount) (n : ℕ) (hn : 0 < n)
    (r1 r2 : ℚ) (h0 : 0 ≤ r1) (h12 : r1 < r2) :
    annuity_payment amount r1 (n : ℤ) < annuity_payment amount r2 (n : ℤ) := by
  rw [annuity_payment_eq_div amount r1 n hn h0,
      annuity_payment_eq_div amount r2 n hn (le_trans h0 h12.le)]
  exact div_lt_div_of_pos_left hP (annuityFactor_pos r2 (le_trans h0 h12.le) n hn)
    (annuityFactor_anti r1 r2 n hn h0 h12)

lemma roundHalfEven_ge_floor (q : ℚ) : ⌊q⌋ ≤ roundHalfEven q := by
  unfold roundHalfEven
  dsimp only
  split_ifs <;> omega

lemma roundHalfEven_le_floor_add_one (q : ℚ) : roundHalfEven q ≤ ⌊q⌋ + 1 := by
  unfold roundHalfEven
  dsimp only
  split_ifs <;> omega

lemma roundHalfEven_mono {x y : ℚ} (h : x ≤ y) : roundHalfEven x ≤ roundHalfEven y := by
  have hf : ⌊x⌋ ≤ ⌊y⌋ := Int.floor_le_floor h
  rcases lt_or_eq_of_le hf with hlt | heq
  · calc roundHalfEven x ≤ ⌊x⌋ + 1 := roundHalfEven_le_floor_add_one x
      _ ≤ ⌊y⌋ := by omega
      _ ≤ roundHalfEven y := roundHalfEven_ge_floor y
  · unfold roundHalfEven
    dsimp only
    rw [← heq]
    have hxy : x - (⌊x⌋ : ℚ) ≤ y - (⌊x⌋ : ℚ) := by linarith
    split_ifs <;> first | rfl | omega | linarith

lemma round2_mono {x y : ℚ} (h : x ≤ y) : round2 x ≤ round2 y := by
  unfold round2
  have h2 : roundHalfEven (100 * x) ≤ roundHalfEven (100 * y) := roundHalfEven_mono (by linarith)
  have h3 : ((roundHalfEven (100 * x) : ℤ) : ℚ) ≤ ((roundHalfEven (100 * y) : ℤ) : ℚ) := by
    exact_mod_cast h2
  linarith

/-- Claim C4 counterexample: amount 12, tenure 1, repayment 5.  A matched
rate of 0.5% and a matched rate of 0% both produce new_monthly_repayment
1.00 after the 2-decimal rounding, so the rounded result does NOT strictly
decrease when the matched rate decreases from 0.5 to 0. -/
theorem C4_counterexample :
    selectBankRate [⟨"A", 0, 100000, 1/2⟩] 12 = some ⟨"A", 0, 100000, 1/2⟩ ∧
    selectBankRate [⟨"B", 0, 100000, 0⟩] 12 = some ⟨"B", 0, 100000, 0⟩ ∧
    (0 : ℚ) < 1/2 ∧
    (calculate_refinance_savings [⟨"B", 0, 100000, 0⟩] (some 12) (some 1) (some 5)).new_monthly_repayment =
      (calculate_refinance_savings [⟨"A", 0, 100000, 1/2⟩] (some 12) (some 1) (some 5)).new_monthly_repayment := by
  refine ⟨by decide, by decide, by norm_num, by decide⟩

/-- Claim C4 (amended): for a fixed positive amount and tenure the
computation is deterministic in the inputs and the matched rate (equal
selected rows give equal results), the UN-rounded annuity payment strictly
increases in the matched rate, and the rounded new_monthly_repayment is
monotone (non-strictly: the 2-decimal rounding can collapse nearby rates to
the same value). -/
theorem C4_payment_monotone (rows rows2 : List BankRate) (amt rep : ℚ) (ten : ℤ)
    (br br2 : BankRate) (hP : 0 < amt) (hten : 0 < ten) (hrep : rep ≠ 0)
    (hsel : selectBankRate rows amt = some br) (hsel2 : selectBankRate rows2 amt = some br2)
    (h0 : 0 ≤ br.interest_rate) (hlt : br.interest_rate < br2.interest_rate) :
    annuity_payment amt (br.interest_rate / 100 / 12) (ten * 12) <
      annuity_payment amt (br2.interest_rate / 100 / 12) (ten * 12) ∧
    (calculate_refinance_savings rows (some amt) (some ten) (some rep)).new_monthly_repayment ≤
      (calculate_refinance_savings rows2 (some amt) (some ten) (some rep)).new_monthly_repayment ∧
    (∀ rowsA rowsB : List BankRate,
      selectBankRate rowsA amt = selectBankRate rowsB amt →
      calculate_refinance_savings rowsA (some amt) (some ten) (some rep) =
        calculate_refinance_savings rowsB (some amt) (some ten) (some rep)) := by
  have hn : (0:ℤ) < ten * 12 := by positivity
  have hnat : ten * 12 = ((ten * 12).toNat : ℤ) := (Int.toNat_of_nonneg hn.le).symm
  have hnpos : 0 < (ten * 12).toNat := by omega
  have hr1 : (0:ℚ) ≤ br.interest_rate / 100 / 12 := by positivity
  have hrlt : br.interest_rate / 100 / 12 < br2.interest_rate / 100 / 12 := by linarith
  have hstrict : annuity_payment amt (br.interest_rate / 100 / 12) (ten * 12) <
      annuity_payment amt (br2.interest_rate / 100 / 12) (ten * 12) := by
    rw [hnat]
    exact annuity_payment_strict amt hP _ hnpos _ _ hr1 hrlt
  have hz : ¬ (amt = 0 ∨ ten = 0 ∨ rep = 0) := by
    push_neg
    exact ⟨ne_of_gt hP, ne_of_gt hten, hrep⟩
  refine ⟨hstrict, ?_, ?_⟩
  · rw [calc_fields rows amt ten rep br hz hsel, calc_fields rows2 amt ten rep br2 hz hsel2]
    exact round2_mono hstrict.le
  · intro rowsA rowsB hAB
    unfold calculate_refinance_savings
    dsimp only
    rw [hAB]

/-- Witness for the amended C4, with matched rates 0% < 0.5% at amount 12,
tenure 1, repayment 5 (where the rounded payments happen to coincide,
consistently with the non-strict inequality). -/
theorem C4_witness :
    annuity_payment 12 ((0:ℚ) / 100 / 12) (1 * 12) <
      annuity_payment 12 ((1/2 : ℚ) / 100 / 12) (1 * 12) ∧
    (calculate_refinance_savings [⟨"B", 0, 100000, 0⟩] (some 12) (some 1) (some 5)).new_monthly_repayment ≤
      (calculate_refinance_savings [⟨"A", 0, 100000, 1/2⟩] (some 12) (some 1) (some 5)).new_monthly_repayment ∧
    (∀ rowsA rowsB : List BankRate,
      selectBankRate rowsA 12 = selectBankRate rowsB 12 →
      calculate_refinance_savings rowsA (some 12) (some 1) (some 5) =
        calculate_refinance_savings rowsB (some 12) (some 1) (some 5)) :=
  C4_payment_monotone [⟨"B", 0, 100000, 0⟩] [⟨"A", 0, 100000, 1/2⟩] 12 5 1
    ⟨"B", 0, 100000, 0⟩ ⟨"A", 0, 100000, 1/2⟩
    (by norm_num) (by norm_num) (by norm_num) (by decide) (by decide)
    (by norm_num) (by norm_num)

/-- Claim C9: calculate_monthly_payment is total and never divides by zero:
it returns 0 when principal ≤ 0, annual_interest_rate ≤ 0 or years ≤ 0,
returns 0 whenever the annuity denominator (1+r)^n − 1 is 0, and for
positive inputs that denominator is provably nonzero and the function
returns the well-defined annuity payment. -/
theorem C9_monthly_payment_total (principal rate years : ℝ) :
    ((principal ≤ 0 ∨ rate ≤ 0 ∨ years ≤ 0) →
      calculate_monthly_payment principal rate years = 0) ∧
    ((1 + rate / 100 / 12) ^ (years * 12) - 1 = 0 →
      calculate_monthly_payment principal rate years = 0) ∧
    (0 < principal → 0 < rate → 0 < years →
      (1 + rate / 100 / 12) ^ (years * 12) - 1 ≠ 0 ∧
      calculate_monthly_payment principal rate years =
        principal * ((rate / 100 / 12) * (1 + rate / 100 / 12) ^ (years * 12) /
          ((1 + rate / 100 / 12) ^ (years * 12) - 1))) := by
  refine ⟨?_, ?_, ?_⟩
  · intro h
    unfold calculate_monthly_payment
    rw [if_pos h]
  · intro hd
    unfold calculate_monthly_payment
    dsimp only
    by_cases hg : principal ≤ 0 ∨ rate ≤ 0 ∨ years ≤ 0
    · rw [if_pos hg]
    · rw [if_neg hg, if_pos hd]
  · intro hp hr hy
    have hrpos : 0 < rate / 100 / 12 := by positivity
    have h1 : (1:ℝ) < 1 + rate / 100 / 12 := by linarith
    have hn : (0:ℝ) < years * 12 := by positivity
    have hpow : 1 < (1 + rate / 100 / 12) ^ (years * 12) :=
      (Real.one_lt_rpow_iff_of_pos (by linarith)).mpr (Or.inl ⟨h1, hn⟩)
    have hden : (1 + rate / 100 / 12) ^ (years * 12) - 1 ≠ 0 :=
      sub_ne_zero.mpr (ne_of_gt hpow)
    refine ⟨hden, ?_⟩
    unfold calculate_monthly_payment
    dsimp only
    rw [if_neg (by push_neg; exact ⟨hp, hr, hy⟩ : ¬ (principal ≤ 0 ∨ rate ≤ 0 ∨ years ≤ 0))]
    rw [if_neg hden]

/-- Witness for C9: a non-positive principal returns 0. -/
theorem C9_witness : calculate_monthly_payment (-1) 5 10 = 0 :=
  (C9_monthly_payment_total (-1) 5 10).1 (by norm_num)

end MessengerBot
